import Mathlib

/-!
Shallow embedding of the download-orchestration core of the media relay bot
(media_bot.py, mp3_downloader.py), together with theorems settling the
specification claims about format selection, cookie rotation, error
escalation, workspace cleanup, the diagnostic slot, and short-link resolution.
-/

namespace MediaBot

/-- The single configured size ceiling: `TELEGRAM_SIZE_LIMIT_BYTES = 49 * 1024 * 1024`
(media_bot.py line 36). -/
def telegramSizeLimitBytes : Nat := 49 * 1024 * 1024

/-- Python `a or b` on optional numbers: the left operand is used unless it is
`None` or `0` (falsy), in which case the right operand is used.  This models
`f.get("filesize") or f.get("filesize_approx")`. -/
def pyOrNat : Option Nat → Option Nat → Option Nat
  | some n, b => if n = 0 then b else some n
  | none, b => b

/-- One entry of the `formats` list in the yt-dlp JSON metadata, with the
fields read by the TikTok selection code (media_bot.py lines 494-507).
A `none` field models an absent (or JSON-null) key. -/
structure TikTokFormat where
  format_id : String
  vcodec : Option String
  acodec : Option String
  height : Option Nat
  tbr : Option Nat
  filesize : Option Nat
  filesize_approx : Option Nat
deriving DecidableEq, Repr

/-- The candidate filter of the TikTok selection (media_bot.py lines 496-500):
combined formats (`vcodec != "none"` and `acodec != "none"`; an absent key is
`None`, which also differs from `"none"`) whose effective size
(`filesize or filesize_approx`) is truthy and strictly under the limit. -/
def tiktokIsCandidate (limit : Nat) (f : TikTokFormat) : Bool :=
  f.vcodec != some "none" && f.acodec != some "none" &&
    match pyOrNat f.filesize f.filesize_approx with
    | some s => decide (0 < s) && decide (s < limit)
    | none => false

/-- The sort key of the TikTok selection (media_bot.py line 505):
`(x.get("height") or 0, x.get("tbr") or 0)`. -/
def fmtKey (f : TikTokFormat) : Nat × Nat := (f.height.getD 0, f.tbr.getD 0)

/-- Strict lexicographic order on the `(height, tbr)` sort keys, as Python
compares tuples. -/
def lexLt (a b : Nat × Nat) : Bool :=
  decide (a.1 < b.1) || (decide (a.1 = b.1) && decide (a.2 < b.2))

/-- Non-strict lexicographic order on the `(height, tbr)` sort keys. -/
def lexLe (a b : Nat × Nat) : Bool :=
  decide (a.1 < b.1) || (decide (a.1 = b.1) && decide (a.2 ≤ b.2))

theorem lexLe_refl (a : Nat × Nat) : lexLe a a = true := by
  simp [lexLe]

theorem lexLe_of_not_lexLt {a b : Nat × Nat} (h : lexLt a b = false) :
    lexLe b a = true := by
  simp only [lexLt, Bool.or_eq_false_iff, Bool.and_eq_false_iff,
    decide_eq_false_iff_not] at h
  simp only [lexLe, Bool.or_eq_true, Bool.and_eq_true, decide_eq_true_eq]
  omega

theorem lexLe_of_lexLt {a b : Nat × Nat} (h : lexLt a b = true) :
    lexLe a b = true := by
  simp only [lexLt, Bool.or_eq_true, Bool.and_eq_true, decide_eq_true_eq] at h
  simp only [lexLe, Bool.or_eq_true, Bool.and_eq_true, decide_eq_true_eq]
  omega

theorem lexLe_trans {a b c : Nat × Nat} (hab : lexLe a b = true)
    (hbc : lexLe b c = true) : lexLe a c = true := by
  simp only [lexLe, Bool.or_eq_true, Bool.and_eq_true, decide_eq_true_eq] at *
  omega

/-- `sorted(candidates, key=..., reverse=True)[0]`: the element with the
lexicographically greatest key, earliest in the list among ties (Python sort
is stable, so `reverse=True` keeps the original order of equal keys). -/
def pickMaxByKey : List TikTokFormat → Option TikTokFormat
  | [] => none
  | f :: rest =>
    some (rest.foldl (fun acc g => if lexLt (fmtKey acc) (fmtKey g) then g else acc) f)

/-- The full size-capped-best selection used for TikTok
(media_bot.py lines 494-507 and the identical lines 562-576): filter to
combined formats strictly under the limit, then take the maximum by
`(height, tbr)`.  Returns `none` when the code raises
`No suitable video formats found under 50 MB`. -/
def selectBestTikTok (limit : Nat) (formats : List TikTokFormat) : Option TikTokFormat :=
  pickMaxByKey (formats.filter (fun f => tiktokIsCandidate limit f))

theorem pickMax_foldl_mem :
    ∀ (l : List TikTokFormat) (f : TikTokFormat),
      l.foldl (fun acc g => if lexLt (fmtKey acc) (fmtKey g) then g else acc) f ∈ f :: l := by
  intro l
  induction l with
  | nil => intro f; simp
  | cons a l ih =>
    intro f
    simp only [List.foldl_cons]
    have hstep : (if lexLt (fmtKey f) (fmtKey a) then a else f) = a ∨
        (if lexLt (fmtKey f) (fmtKey a) then a else f) = f := by
      by_cases hc : lexLt (fmtKey f) (fmtKey a) = true <;> simp [hc]
    rcases List.mem_cons.mp (ih (if lexLt (fmtKey f) (fmtKey a) then a else f)) with h | h
    · rw [h]
      rcases hstep with h2 | h2 <;> rw [h2] <;> simp
    · simp [h]

theorem pickMax_foldl_ge :
    ∀ (l : List TikTokFormat) (f g : TikTokFormat), g ∈ f :: l →
      lexLe (fmtKey g)
        (fmtKey (l.foldl (fun acc h => if lexLt (fmtKey acc) (fmtKey h) then h else acc) f)) = true := by
  intro l
  induction l with
  | nil =>
    intro f g hg
    simp only [List.mem_singleton] at hg
    subst hg
    simpa using lexLe_refl (fmtKey g)
  | cons a l ih =>
    intro f g hg
    simp only [List.foldl_cons]
    have step : lexLe (fmtKey g) (fmtKey (if lexLt (fmtKey f) (fmtKey a) then a else f)) = true ∨
        g ∈ l := by
      rcases List.mem_cons.mp hg with h | h
      · subst h
        by_cases hc : lexLt (fmtKey g) (fmtKey a) = true
        · left; rw [hc]; exact lexLe_of_lexLt hc
        · left
          rw [Bool.not_eq_true] at hc
          rw [hc]; exact lexLe_refl _
      · rcases List.mem_cons.mp h with h2 | h2
        · subst h2
          by_cases hc : lexLt (fmtKey f) (fmtKey g) = true
          · left; rw [hc]; exact lexLe_refl _
          · left
            rw [Bool.not_eq_true] at hc
            rw [hc]; exact lexLe_of_not_lexLt hc
        · right; exact h2
    rcases step with h | h
    · exact lexLe_trans h (ih _ _ (List.mem_cons_self _ _))
    · exact ih _ _ (List.mem_cons.mpr (Or.inr h))

theorem pickMaxByKey_eq_none_iff (l : List TikTokFormat) :
    pickMaxByKey l = none ↔ l = [] := by
  cases l <;> simp [pickMaxByKey]

/-- The 480p, 10 MB combined format of the specification scenario. -/
def tiktokExample480 : TikTokFormat :=
  { format_id := "f480", vcodec := some "h264", acodec := some "aac",
    height := some 480, tbr := some 1200,
    filesize := some 10000000, filesize_approx := none }

/-- The 720p, 60 MB combined format of the specification scenario. -/
def tiktokExample720 : TikTokFormat :=
  { format_id := "f720", vcodec := some "h264", acodec := some "aac",
    height := some 720, tbr := some 2500,
    filesize := some 60000000, filesize_approx := none }

/-- The 360p, 5 MB combined format of the specification scenario. -/
def tiktokExample360 : TikTokFormat :=
  { format_id := "f360", vcodec := some "h264", acodec := some "aac",
    height := some 360, tbr := some 800,
    filesize := some 5000000, filesize_approx := none }

/-- The format catalog of the specification scenario, in the order given there. -/
def tiktokExampleFormats : List TikTokFormat :=
  [tiktokExample480, tiktokExample720, tiktokExample360]

/-- Claim C1: the size-capped-best selection considers only combined
(video+audio) formats whose known size is strictly under the limit, returns
`none` (the code raises) when no format qualifies, otherwise picks the maximum
by `(height, tbr)` lexicographic order; on the concrete catalog
480p/10MB, 720p/60MB, 360p/5MB with the 49 MiB ceiling it selects the 480p
format and never the 720p one. -/
theorem tiktok_size_capped_selection :
    (∀ limit formats, selectBestTikTok limit formats = none ↔
        formats.filter (fun f => tiktokIsCandidate limit f) = [])
    ∧ (∀ limit formats f, selectBestTikTok limit formats = some f →
        f ∈ formats ∧ tiktokIsCandidate limit f = true ∧
          ∀ g ∈ formats, tiktokIsCandidate limit g = true →
            lexLe (fmtKey g) (fmtKey f) = true)
    ∧ selectBestTikTok telegramSizeLimitBytes tiktokExampleFormats = some tiktokExample480 := by
  refine ⟨?_, ?_, by decide⟩
  · intro limit formats
    exact pickMaxByKey_eq_none_iff _
  · intro limit formats f hsel
    have hfilter : ∃ c cs,
        formats.filter (fun h => tiktokIsCandidate limit h) = c :: cs := by
      rcases hcase : formats.filter (fun h => tiktokIsCandidate limit h) with _ | ⟨c, cs⟩
      · rw [selectBestTikTok, hcase] at hsel
        simp [pickMaxByKey] at hsel
      · exact ⟨c, cs, rfl⟩
    rcases hfilter with ⟨c, cs, hcase⟩
    rw [selectBestTikTok, hcase] at hsel
    simp only [pickMaxByKey, Option.some.injEq] at hsel
    have hmem : f ∈ c :: cs := hsel ▸ pickMax_foldl_mem cs c
    have hmemFilter : f ∈ formats.filter (fun h => tiktokIsCandidate limit h) := by
      rw [hcase]; exact hmem
    have hf := List.mem_filter.mp hmemFilter
    refine ⟨hf.1, hf.2, ?_⟩
    intro g hg hgc
    have hgmem : g ∈ c :: cs := by
      rw [← hcase]
      exact List.mem_filter.mpr ⟨hg, hgc⟩
    exact hsel ▸ pickMax_foldl_ge cs c g hgmem

/-- Witness for C1: the selection theorem applied at the concrete
specification scenario. -/
theorem tiktok_size_capped_selection_witness :
    tiktokExample480 ∈ tiktokExampleFormats ∧
      tiktokIsCandidate telegramSizeLimitBytes tiktokExample480 = true ∧
      ∀ g ∈ tiktokExampleFormats,
        tiktokIsCandidate telegramSizeLimitBytes g = true →
          lexLe (fmtKey g) (fmtKey tiktokExample480) = true :=
  tiktok_size_capped_selection.2.1 telegramSizeLimitBytes tiktokExampleFormats
    tiktokExample480 (by decide)

/-- One raw entry of the `formats` list as read by the YouTube Shorts analyzer
(media_bot.py lines 646-653), before the defaulting `get` calls. -/
structure ShortsRawFormat where
  format_id : String
  vcodec : Option String
  acodec : Option String
  height : Option Nat
  ext : Option String
  filesize : Option Nat
  filesize_approx : Option Nat
  tbr : Option Nat
deriving DecidableEq, Repr

/-- `fmt.get("filesize") or fmt.get("filesize_approx", 0)`
(media_bot.py line 651). -/
def shortsEffSize (f : ShortsRawFormat) : Nat :=
  match f.filesize with
  | some n => if n = 0 then f.filesize_approx.getD 0 else n
  | none => f.filesize_approx.getD 0

/-- Combined classification (media_bot.py line 655):
`vcodec != "none" and acodec != "none"` after `get(..., "none")` defaulting. -/
def shortsIsCombined (f : ShortsRawFormat) : Bool :=
  f.vcodec.getD "none" != "none" && f.acodec.getD "none" != "none"

/-- The record built for each combined format (media_bot.py lines 657-665). -/
structure CombinedFmt where
  format_id : String
  height : Nat
  ext : String
  filesize : Nat
  tbr : Nat
  is_mp4 : Bool
deriving DecidableEq, Repr

/-- Python `str.lower()`, character by character (ASCII case folding). -/
def pyLower (s : String) : String := ⟨s.data.map Char.toLower⟩

/-- Builds the combined-format record, with the defaults applied by the
analyzer: height defaults to 0, ext to the empty string, tbr to 0, and
`is_mp4 = ext.lower() == "mp4"`. -/
def toCombined (f : ShortsRawFormat) : CombinedFmt :=
  { format_id := f.format_id, height := f.height.getD 0, ext := f.ext.getD "",
    filesize := shortsEffSize f, tbr := f.tbr.getD 0,
    is_mp4 := pyLower (f.ext.getD "") == "mp4" }

/-- The `combined_formats` list (media_bot.py lines 642-665): the combined raw
formats, in catalog order, converted to records. -/
def combinedFormats (fs : List ShortsRawFormat) : List CombinedFmt :=
  (fs.filter shortsIsCombined).map toCombined

/-- The resolution keys of `resolution_groups` (media_bot.py lines 706-711):
distinct heights of the combined formats, in first-appearance order. -/
def combinedHeights (cs : List CombinedFmt) : List Nat :=
  (cs.map (fun f => f.height)).dedup

/-- Python `sorted` on a list of naturals. -/
def sortNatAsc (l : List Nat) : List Nat := List.insertionSort (· ≤ ·) l

/-- Python `sorted(..., reverse=True)` on a list of naturals. -/
def sortNatDesc (l : List Nat) : List Nat := List.insertionSort (fun a b => b ≤ a) l

instance : IsTotal Nat (fun a b => b ≤ a) := ⟨fun a b => le_total b a⟩

instance : IsTrans Nat (fun a b => b ≤ a) := ⟨fun _ _ _ hab hbc => le_trans hbc hab⟩

/-- The resolution trial order (media_bot.py lines 713-716):
`sorted([r >= 720]) + sorted([r < 720], reverse=True)` over the available
resolutions. -/
def resolutionPriority (cs : List CombinedFmt) : List Nat :=
  let avail := sortNatAsc (combinedHeights cs)
  sortNatAsc (avail.filter (fun r => decide (720 ≤ r))) ++
    sortNatDesc (avail.filter (fun r => decide (r < 720)))

/-- `resolution_groups[height]`: the combined formats at one resolution, in
catalog order. -/
def formatsForResolution (cs : List CombinedFmt) (h : Nat) : List CombinedFmt :=
  cs.filter (fun f => f.height == h)

/-- The sort key of the within-group sort (media_bot.py line 723):
`(x["is_mp4"], x["tbr"])`, with Python booleans compared as 0/1. -/
def groupKey (f : CombinedFmt) : Nat × Nat :=
  ((if f.is_mp4 then 1 else 0), f.tbr)

/-- Within one resolution group, `a` may come no later than `b`:
`a` has a group key lexicographically at least that of `b`. -/
def groupRel (a b : CombinedFmt) : Prop := lexLe (groupKey b) (groupKey a) = true

instance : DecidableRel groupRel := fun a b => by
  unfold groupRel; infer_instance

theorem lexLe_total (a b : Nat × Nat) : lexLe a b = true ∨ lexLe b a = true := by
  simp only [lexLe, Bool.or_eq_true, Bool.and_eq_true, decide_eq_true_eq]
  omega

instance : IsTotal CombinedFmt groupRel :=
  ⟨fun a b => (lexLe_total (groupKey a) (groupKey b)).symm⟩

instance : IsTrans CombinedFmt groupRel :=
  ⟨fun _ _ _ hab hbc => lexLe_trans hbc hab⟩

/-- `formats_for_resolution.sort(key=..., reverse=True)` (media_bot.py
line 723): stable descending sort by `(is_mp4, tbr)`. -/
def sortGroupDesc (l : List CombinedFmt) : List CombinedFmt :=
  List.insertionSort groupRel l

/-- The full order in which the combined-format loop tries candidates
(media_bot.py lines 720-725): resolutions in priority order, each group sorted
mp4-first then by bitrate. -/
def shortsTrialOrder (cs : List CombinedFmt) : List CombinedFmt :=
  (resolutionPriority cs).map (fun h => sortGroupDesc (formatsForResolution cs h)) |>.flatten

/-- The declared-size skip (media_bot.py line 729):
`if fmt["filesize"] and fmt["filesize"] > TELEGRAM_SIZE_LIMIT_BYTES: continue`. -/
def shortsSkip (limit : Nat) (f : CombinedFmt) : Bool :=
  f.filesize != 0 && decide (limit < f.filesize)

/-- The first combined format the loop actually attempts to download: the
first element of the trial order not skipped for declared size. -/
def shortsFirstAttempt (limit : Nat) (cs : List CombinedFmt) : Option CombinedFmt :=
  (shortsTrialOrder cs).find? (fun f => !shortsSkip limit f)

/-- The tier ordering the specification describes: within the high tier
(≥ 720p) ascending, the whole high tier before the low tier (< 720p), and the
low tier descending. -/
def tierBefore (a b : Nat) : Prop :=
  (720 ≤ a ∧ 720 ≤ b ∧ a ≤ b) ∨ (720 ≤ a ∧ b < 720) ∨ (a < 720 ∧ b < 720 ∧ b ≤ a)

/-- The 480p combined example format, under the ceiling, listed first. -/
def shortsRaw480 : ShortsRawFormat :=
  { format_id := "s480", vcodec := some "avc1", acodec := some "mp4a",
    height := some 480, ext := some "mp4", filesize := some 9000000,
    filesize_approx := none, tbr := some 900 }

/-- The 720p combined example format, under the ceiling, listed second. -/
def shortsRaw720 : ShortsRawFormat :=
  { format_id := "s720", vcodec := some "avc1", acodec := some "mp4a",
    height := some 720, ext := some "mp4", filesize := some 20000000,
    filesize_approx := none, tbr := some 1800 }

/-- The example catalog: 480p and 720p combined formats, both under the
ceiling. -/
def shortsExampleRaw : List ShortsRawFormat := [shortsRaw480, shortsRaw720]

/-- Claim C2: the tiered selection orders combined-format resolution groups as
all resolutions ≥ 720p ascending then all resolutions < 720p descending;
within one resolution group mp4 comes before other containers and then higher
bitrate; with combined 480p and 720p formats both under the ceiling the 720p
format is tried first. -/
theorem shorts_tiered_selection :
    (∀ cs : List CombinedFmt, (resolutionPriority cs).Pairwise tierBefore)
    ∧ (∀ (cs : List CombinedFmt) (h : Nat),
        h ∈ resolutionPriority cs ↔ h ∈ cs.map (fun f => f.height))
    ∧ (∀ l : List CombinedFmt,
        (sortGroupDesc l).Pairwise groupRel ∧ (sortGroupDesc l).Perm l)
    ∧ shortsFirstAttempt telegramSizeLimitBytes (combinedFormats shortsExampleRaw) =
        some (toCombined shortsRaw720) := by
  refine ⟨?_, ?_, ?_, by decide⟩
  · intro cs
    rw [resolutionPriority, List.pairwise_append]
    refine ⟨?_, ?_, ?_⟩
    · have hs : (sortNatAsc ((sortNatAsc (combinedHeights cs)).filter
          (fun r => decide (720 ≤ r)))).Pairwise (· ≤ ·) :=
        List.sorted_insertionSort _ _
      refine hs.imp_of_mem ?_
      intro a b ha hb hab
      have ha720 : 720 ≤ a := by
        have := List.mem_filter.mp ((List.mem_insertionSort _).mp ha)
        simpa using this.2
      have hb720 : 720 ≤ b := by
        have := List.mem_filter.mp ((List.mem_insertionSort _).mp hb)
        simpa using this.2
      exact Or.inl ⟨ha720, hb720, hab⟩
    · have hs : (sortNatDesc ((sortNatAsc (combinedHeights cs)).filter
          (fun r => decide (r < 720)))).Pairwise (fun a b => b ≤ a) :=
        List.sorted_insertionSort _ _
      refine hs.imp_of_mem ?_
      intro a b ha hb hab
      have ha720 : a < 720 := by
        have := List.mem_filter.mp ((List.mem_insertionSort _).mp ha)
        simpa using this.2
      have hb720 : b < 720 := by
        have := List.mem_filter.mp ((List.mem_insertionSort _).mp hb)
        simpa using this.2
      exact Or.inr (Or.inr ⟨ha720, hb720, hab⟩)
    · intro a ha b hb
      have ha720 : 720 ≤ a := by
        have := List.mem_filter.mp ((List.mem_insertionSort _).mp ha)
        simpa using this.2
      have hb720 : b < 720 := by
        have := List.mem_filter.mp ((List.mem_insertionSort _).mp hb)
        simpa using this.2
      exact Or.inr (Or.inl ⟨ha720, hb720⟩)
  · intro cs h
    rw [resolutionPriority]
    simp only [List.mem_append, sortNatAsc, sortNatDesc, List.mem_insertionSort,
      List.mem_filter, decide_eq_true_eq, combinedHeights, List.mem_dedup]
    constructor
    · rintro (⟨hm, _⟩ | ⟨hm, _⟩) <;> exact hm
    · intro hm
      by_cases hc : 720 ≤ h
      · exact Or.inl ⟨hm, hc⟩
      · exact Or.inr ⟨hm, by omega⟩
  · intro l
    exact ⟨List.sorted_insertionSort groupRel l, List.perm_insertionSort groupRel l⟩

/-- The per-platform cookie rotation pool (media_bot.py lines 130-162):
the sorted file listing together with the position of the `itertools.cycle`
iterator. -/
structure CookieRotator where
  cookieFiles : List String
  idx : Nat
deriving DecidableEq, Repr

/-- `sorted(glob.glob(...))` (media_bot.py line 144): the files matching the
platform glob, in sorted-filename order. -/
def loadCookieFiles (listing : List String) : List String :=
  List.insertionSort (· ≤ ·) listing

/-- `get_next_cookie` (media_bot.py lines 153-162): raises (`none`) when the
pool is empty, otherwise yields the next element of the infinite cyclic
sequence over the file listing and advances the shared pointer. -/
def CookieRotator.getNextCookie (r : CookieRotator) : Option (String × CookieRotator) :=
  match r.cookieFiles[r.idx % r.cookieFiles.length]? with
  | none => none
  | some c => some (c, ⟨r.cookieFiles, r.idx + 1⟩)

/-- The outputs of `n` successive `get_next_cookie` calls (stopping early only
if a call fails, which cannot happen on a nonempty pool). -/
def rotatorRun : CookieRotator → Nat → List String
  | _, 0 => []
  | r, n + 1 =>
    match r.getNextCookie with
    | none => []
    | some (c, r2) => c :: rotatorRun r2 n

theorem getD_range_map :
    ∀ (l : List String), (List.range l.length).map (fun k => l.getD k "") = l := by
  intro l
  induction l with
  | nil => simp
  | cons a l ih =>
    rw [List.length_cons, List.range_succ_eq_map, List.map_cons, List.map_map]
    have hfun : ((fun k => (a :: l).getD k "") ∘ Nat.succ) = (fun k => l.getD k "") := by
      funext k
      simp
    rw [hfun, ih]
    simp

theorem rotatorRun_formula (files : List String) (hne : files ≠ []) :
    ∀ (n i : Nat), rotatorRun ⟨files, i⟩ n =
      (List.range n).map (fun k => files.getD ((i + k) % files.length) "") := by
  have hlen : 0 < files.length := List.length_pos.mpr hne
  intro n
  induction n with
  | zero => intro i; simp [rotatorRun]
  | succ n ih =>
    intro i
    have hidx : i % files.length < files.length := Nat.mod_lt _ hlen
    have hget : files[i % files.length]? = some (files.getD (i % files.length) "") := by
      simp [List.getD_eq_getElem?_getD, List.getElem?_eq_getElem hidx]
    rw [rotatorRun, CookieRotator.getNextCookie]
    simp only [hget]
    rw [ih (i + 1), List.range_succ_eq_map, List.map_cons, List.map_map]
    simp only [Nat.add_zero]
    congr 1
    apply List.map_congr_left
    intro k _
    simp only [Function.comp_apply]
    have harg : i + 1 + k = i + Nat.succ k := by omega
    rw [harg]

/-- Claim C3: for a pool loaded from a listing with N matching files, N
successive `get_next_cookie` calls return each file of the sorted listing in
order (each exactly once when the listing has no duplicates), the (N+1)-th
call returns the first file again, and the rotation order is the sorted
listing order. -/
theorem cookie_rotation_cycle (listing : List String)
    (hne : 0 < (loadCookieFiles listing).length) :
    rotatorRun ⟨loadCookieFiles listing, 0⟩ (loadCookieFiles listing).length =
        loadCookieFiles listing
      ∧ ((loadCookieFiles listing).Nodup →
          ∀ f ∈ loadCookieFiles listing,
            (rotatorRun ⟨loadCookieFiles listing, 0⟩
                (loadCookieFiles listing).length).count f = 1)
      ∧ (rotatorRun ⟨loadCookieFiles listing, 0⟩
            ((loadCookieFiles listing).length + 1))[(loadCookieFiles listing).length]? =
          (loadCookieFiles listing)[0]?
      ∧ (loadCookieFiles listing).Sorted (· ≤ ·) := by
  set files := loadCookieFiles listing with hfiles
  have hne2 : files ≠ [] := by
    intro h
    rw [h] at hne
    simp at hne
  have hrun : rotatorRun ⟨files, 0⟩ files.length = files := by
    rw [rotatorRun_formula files hne2]
    calc (List.range files.length).map (fun k => files.getD ((0 + k) % files.length) "")
        = (List.range files.length).map (fun k => files.getD k "") := by
          apply List.map_congr_left
          intro k hk
          rw [List.mem_range] at hk
          rw [Nat.zero_add, Nat.mod_eq_of_lt hk]
      _ = files := getD_range_map files
  refine ⟨hrun, ?_, ?_, ?_⟩
  · intro hnodup f hf
    rw [hrun]
    exact List.count_eq_one_of_mem hnodup hf
  · rw [rotatorRun_formula files hne2]
    rw [List.getElem?_map, List.getElem?_range (by omega)]
    have h0 : (0 + files.length) % files.length = 0 := by
      rw [Nat.zero_add, Nat.mod_self]
    simp only [Option.map_some', h0]
    rcases files with _ | ⟨a, rest⟩
    · exact absurd rfl hne2
    · simp
  · exact List.sorted_insertionSort _ listing

/-- Witness for C3: the rotation theorem applied to a concrete three-file
listing given out of order. -/
theorem cookie_rotation_cycle_witness :
    rotatorRun ⟨loadCookieFiles ["cookies2.txt", "cookies1.txt", "cookies3.txt"], 0⟩
        (loadCookieFiles ["cookies2.txt", "cookies1.txt", "cookies3.txt"]).length =
        loadCookieFiles ["cookies2.txt", "cookies1.txt", "cookies3.txt"]
      ∧ ((loadCookieFiles ["cookies2.txt", "cookies1.txt", "cookies3.txt"]).Nodup →
          ∀ f ∈ loadCookieFiles ["cookies2.txt", "cookies1.txt", "cookies3.txt"],
            (rotatorRun ⟨loadCookieFiles ["cookies2.txt", "cookies1.txt", "cookies3.txt"], 0⟩
                (loadCookieFiles ["cookies2.txt", "cookies1.txt", "cookies3.txt"]).length).count f = 1)
      ∧ (rotatorRun ⟨loadCookieFiles ["cookies2.txt", "cookies1.txt", "cookies3.txt"], 0⟩
            ((loadCookieFiles ["cookies2.txt", "cookies1.txt", "cookies3.txt"]).length + 1))[(loadCookieFiles ["cookies2.txt", "cookies1.txt", "cookies3.txt"]).length]? =
          (loadCookieFiles ["cookies2.txt", "cookies1.txt", "cookies3.txt"])[0]?
      ∧ (loadCookieFiles ["cookies2.txt", "cookies1.txt", "cookies3.txt"]).Sorted (· ≤ ·) :=
  cookie_rotation_cycle ["cookies2.txt", "cookies1.txt", "cookies3.txt"]
    (by rw [loadCookieFiles, List.length_insertionSort]; decide)

/-- Python `str.startswith`, character by character. -/
def pyStartsWith (s pre : String) : Bool := pre.data.isPrefixOf s.data

/-- The `str(e)` text of the optional `last_error` as interpolated into the
exhaustion message; `last_error` starts as Python `None`. -/
def lastErrorText : Option String → String
  | none => "None"
  | some m => m

/-- The exhaustion error raised after all cookies failed
(media_bot.py line 218). -/
def allCookiesFailedMsg (lastErr : Option String) : String :=
  "All instagram cookie files failed. Last error: " ++ lastErrorText lastErr

/-- The attempt loop of `try_with_all_cookies_async` (media_bot.py lines
172-218) over the successive cookies the rotation yields: on success return
the result; on an error whose text starts with `PHOTO_ONLY:` re-raise that
error at once; on any other error remember it as the last error and advance
to the next cookie; when the cookies run out raise the exhaustion message.
The second component counts the calls of the per-bundle operation. -/
def tryEachCookie (op : String → Except String α) :
    List String → Option String → Nat → Except String α × Nat
  | [], lastErr, used => (.error (allCookiesFailedMsg lastErr), used)
  | c :: rest, _lastErr, used =>
    match op c with
    | .ok v => (.ok v, used + 1)
    | .error e =>
      if pyStartsWith e "PHOTO_ONLY:" then (.error e, used + 1)
      else tryEachCookie op rest (some e) (used + 1)

/-- `try_with_all_cookies_async` (media_bot.py lines 164-218): raises at once
on an empty pool, otherwise makes up to `attempts_total = len(cookie_files)`
attempts, drawing cookies from the rotation. -/
def tryWithAllCookiesAsync (r : CookieRotator) (op : String → Except String α) :
    Except String α × Nat :=
  if r.cookieFiles.isEmpty then (.error "No available cookie files for attempts", 0)
  else tryEachCookie op (rotatorRun r r.cookieFiles.length) none 0

theorem rotatorRun_cons (files : List String) (hne : files ≠ []) (i n : Nat) :
    rotatorRun ⟨files, i⟩ (n + 1) =
      files.getD (i % files.length) "" :: rotatorRun ⟨files, i + 1⟩ n := by
  rw [rotatorRun_formula files hne (n + 1) i, rotatorRun_formula files hne n (i + 1),
    List.range_succ_eq_map, List.map_cons, List.map_map]
  congr 1
  apply List.map_congr_left
  intro k _
  simp only [Function.comp_apply]
  have harg : i + 1 + k = i + Nat.succ k := by omega
  rw [harg]

/-- Claim C4: when the per-bundle operation fails with the terminal
`PHOTO_ONLY:` content-mismatch error, `try_with_all_cookies_async` performs
exactly one attempt regardless of pool size and propagates that error
unchanged, trying no further cookie. -/
theorem photo_only_stops_rotation {α : Type} (r : CookieRotator)
    (op : String → Except String α) (errOf : String → String)
    (hne : r.cookieFiles ≠ [])
    (hop : ∀ c, op c = .error (errOf c))
    (hterm : ∀ c, pyStartsWith (errOf c) "PHOTO_ONLY:" = true) :
    tryWithAllCookiesAsync r op =
      (.error (errOf ((rotatorRun r r.cookieFiles.length).headD "")), 1) := by
  obtain ⟨files, i⟩ := r
  have hne2 : files ≠ [] := hne
  have hlen : 0 < files.length := List.length_pos.mpr hne2
  have hcount : files.length = (files.length - 1) + 1 := by omega
  have hrun : rotatorRun ⟨files, i⟩ files.length =
      files.getD (i % files.length) "" ::
        rotatorRun ⟨files, i + 1⟩ (files.length - 1) := by
    conv_lhs => rw [hcount]
    exact rotatorRun_cons files hne2 i (files.length - 1)
  rw [tryWithAllCookiesAsync, if_neg (by simp [List.isEmpty_iff, hne2])]
  show tryEachCookie op (rotatorRun ⟨files, i⟩ files.length) none 0 =
    (.error (errOf ((rotatorRun ⟨files, i⟩ files.length).headD "")), 1)
  rw [hrun, tryEachCookie, hop]
  simp [hterm]

/-- Witness for C4: a two-cookie pool whose operation always raises the
photo-only error stops after one attempt and re-raises it. -/
theorem photo_only_stops_rotation_witness :
    tryWithAllCookiesAsync (⟨["ca.txt", "cb.txt"], 0⟩ : CookieRotator)
        (fun _ => (.error "PHOTO_ONLY:no video" : Except String Nat)) =
      (.error "PHOTO_ONLY:no video", 1) :=
  photo_only_stops_rotation ⟨["ca.txt", "cb.txt"], 0⟩
    (fun _ => .error "PHOTO_ONLY:no video") (fun _ => "PHOTO_ONLY:no video")
    (by decide) (fun _ => rfl) (fun _ => rfl)

theorem tryEachCookie_exhausts {α : Type} (op : String → Except String α)
    (errOf : String → String)
    (hop : ∀ c, op c = .error (errOf c))
    (hterm : ∀ c, pyStartsWith (errOf c) "PHOTO_ONLY:" = false) :
    ∀ (l : List String) (c0 : String) (lastErr : Option String) (used : Nat),
      tryEachCookie op (c0 :: l) lastErr used =
        (.error (allCookiesFailedMsg (some (errOf ((c0 :: l).getLastD "")))),
          used + (c0 :: l).length) := by
  intro l
  induction l with
  | nil =>
    intro c0 lastErr used
    rw [tryEachCookie, hop]
    simp [hterm, tryEachCookie]
  | cons c1 l ih =>
    intro c0 lastErr used
    rw [tryEachCookie, hop]
    simp only [hterm, Bool.false_eq_true, if_false]
    rw [ih c1 (some (errOf c0)) (used + 1)]
    simp only [List.getLastD_cons, List.length_cons, Prod.mk.injEq]
    exact ⟨by trivial, by omega⟩

/-- Claim C5: when the per-bundle operation fails non-terminally on every
attempt, `try_with_all_cookies_async` performs exactly N attempts
(N = number of loaded cookie files) and then fails with the
all-attempts-exhausted error carrying the error text of the last attempt. -/
theorem all_cookies_exhausted {α : Type} (r : CookieRotator)
    (op : String → Except String α) (errOf : String → String)
    (hne : r.cookieFiles ≠ [])
    (hop : ∀ c, op c = .error (errOf c))
    (hterm : ∀ c, pyStartsWith (errOf c) "PHOTO_ONLY:" = false) :
    tryWithAllCookiesAsync r op =
      (.error (allCookiesFailedMsg (some (errOf
          ((rotatorRun r r.cookieFiles.length).getLastD "")))),
        r.cookieFiles.length) := by
  obtain ⟨files, i⟩ := r
  have hne2 : files ≠ [] := hne
  have hlen : 0 < files.length := List.length_pos.mpr hne2
  have hcount : files.length = (files.length - 1) + 1 := by omega
  have hrun : rotatorRun ⟨files, i⟩ files.length =
      files.getD (i % files.length) "" ::
        rotatorRun ⟨files, i + 1⟩ (files.length - 1) := by
    conv_lhs => rw [hcount]
    exact rotatorRun_cons files hne2 i (files.length - 1)
  have hrunlen : (rotatorRun ⟨files, i⟩ files.length).length = files.length := by
    rw [rotatorRun_formula files hne2]
    simp
  rw [tryWithAllCookiesAsync, if_neg (by simp [List.isEmpty_iff, hne2])]
  show tryEachCookie op (rotatorRun ⟨files, i⟩ files.length) none 0 =
    (.error (allCookiesFailedMsg (some (errOf
        ((rotatorRun ⟨files, i⟩ files.length).getLastD "")))),
      files.length)
  rw [hrun, tryEachCookie_exhausts op errOf hop hterm]
  rw [hrun] at hrunlen
  simp only [Prod.mk.injEq]
  exact ⟨by trivial, by rw [Nat.zero_add, hrunlen]⟩

/-- Witness for C5: a two-cookie pool whose operation always fails
non-terminally makes exactly two attempts and reports the last error
(the one raised with the second cookie). -/
theorem all_cookies_exhausted_witness :
    tryWithAllCookiesAsync (⟨["ca.txt", "cb.txt"], 0⟩ : CookieRotator)
        (fun c => (.error ("download failed with " ++ c) : Except String Nat)) =
      (.error (allCookiesFailedMsg (some "download failed with cb.txt")), 2) :=
  all_cookies_exhausted ⟨["ca.txt", "cb.txt"], 0⟩
    (fun c => .error ("download failed with " ++ c))
    (fun c => "download failed with " ++ c)
    (by decide) (fun _ => rfl) (fun _ => rfl)

/-- `TEMP_DOWNLOADS_DIR` (media_bot.py line 34). -/
def tempDownloadsDir : String := "/app/bot_temp"

/-- The Instagram final pre-upload size check (media_bot.py lines 927-931):
the downloaded file is sent only when its size does not exceed the hard-coded
`50 * 1024 * 1024` bound (`if file_size > 50 * 1024 * 1024: return`). -/
def instagramPreUploadAllows (size : Nat) : Bool :=
  !(decide (50 * 1024 * 1024 < size))

/-- The MP3 downloader state (mp3_downloader.py lines 13-16). -/
structure MP3Downloader where
  tempDownloadsDir : String
  telegramSizeLimit : Nat
deriving DecidableEq, Repr

/-- The process-wide MP3 downloader instance (media_bot.py line 67),
constructed with the shared size constant. -/
def mp3Downloader : MP3Downloader := ⟨tempDownloadsDir, telegramSizeLimitBytes⟩

/-- The MP3 size check (mp3_downloader.py lines 125-128): the downloaded file
is kept only when its size does not exceed `self.telegram_size_limit`. -/
def mp3SizeOk (d : MP3Downloader) (size : Nat) : Bool :=
  !(decide (d.telegramSizeLimit < size))

/-- Counterexample to claim C6: a file of exactly 50 MiB exceeds the single
configured ceiling `TELEGRAM_SIZE_LIMIT_BYTES` (49 MiB), yet the Instagram
handler final pre-upload check allows it, because that check compares against
a hard-coded `50 * 1024 * 1024` rather than the constant. -/
theorem size_limit_not_single_counterexample :
    telegramSizeLimitBytes < 50 * 1024 * 1024 ∧
      instagramPreUploadAllows (50 * 1024 * 1024) = true := by
  constructor <;> decide

/-- Claim C6 (amended): the size ceiling constant
`TELEGRAM_SIZE_LIMIT_BYTES = 49 MiB` is the limit used by the format
selection and download checks of the strategies and by the MP3 size check, but the
Instagram handler final pre-upload check compares against a hard-coded
50 MiB bound, so it admits files whose size lies strictly between the
constant and 50 MiB. -/
theorem size_limit_usage :
    (∀ s, instagramPreUploadAllows s = true ↔ s ≤ 50 * 1024 * 1024)
    ∧ mp3Downloader.telegramSizeLimit = telegramSizeLimitBytes
    ∧ (∀ s, mp3SizeOk mp3Downloader s = true ↔ s ≤ telegramSizeLimitBytes)
    ∧ (∀ f : CombinedFmt, shortsSkip telegramSizeLimitBytes f = true ↔
        f.filesize ≠ 0 ∧ telegramSizeLimitBytes < f.filesize)
    ∧ (∀ f : TikTokFormat, ∀ s, pyOrNat f.filesize f.filesize_approx = some s →
        tiktokIsCandidate telegramSizeLimitBytes f = true →
          s < telegramSizeLimitBytes)
    ∧ telegramSizeLimitBytes < 49 * 1024 * 1024 + 1 ∧
      instagramPreUploadAllows (49 * 1024 * 1024 + 1) = true := by
  refine ⟨?_, rfl, ?_, ?_, ?_, by decide, by decide⟩
  · intro s
    simp [instagramPreUploadAllows]
  · intro s
    simp [mp3SizeOk, mp3Downloader, telegramSizeLimitBytes]
  · intro f
    simp [shortsSkip]
  · intro f s hsize hcand
    rw [tiktokIsCandidate] at hcand
    simp only [Bool.and_eq_true, bne_iff_ne, ne_eq] at hcand
    rcases hcand with ⟨_, hmatch⟩
    rw [hsize] at hmatch
    simp only [Bool.and_eq_true, decide_eq_true_eq] at hmatch
    exact hmatch.2

/-- Witness for C6 (amended): the TikTok candidate bound applied to the
concrete 480p example format, whose size is under the constant. -/
theorem size_limit_usage_witness :
    (10000000 : Nat) < telegramSizeLimitBytes :=
  size_limit_usage.2.2.2.2.1 tiktokExample480 10000000 rfl (by decide)

/-- The outcome of one `send_error_to_admin` call, as seen by its caller. -/
inductive AdminSendResult where
  | sentOk
  | skippedNoAdmin
  | failedLogged (err : String)
deriving DecidableEq, Repr

/-- `send_error_to_admin` (media_bot.py lines 75-127): returns immediately
when no admin group is configured; otherwise performs the document send
inside a blanket `try`/`except` so that a failure is logged (`failedLogged`)
and never raised to the caller. -/
def sendErrorToAdmin (adminGroupId : Option Int)
    (sendDocument : Except String Unit) : AdminSendResult :=
  match adminGroupId with
  | none => .skippedNoAdmin
  | some _ =>
    match sendDocument with
    | .ok _ => .sentOk
    | .error e => .failedLogged e

/-- The user-facing result of the Instagram handler. -/
inductive InstaUserMsg where
  | photoNotice (msg : String)
  | oversizeNotice
  | delivered
  | downloadFailedNotice
  | unexpectedErrorNotice
deriving DecidableEq, Repr

/-- The outcome translation of `process_instagram_link` (media_bot.py lines
894-1007): from the download step result — an exception, or the
`(video_path, photo_message)` pair — and the size of the downloaded file,
produce the user-facing message, whether an admin escalation is made, and the
escalation call result when one is made. -/
def processInstagramLinkModel
    (dl : Except String (Option String × Option String))
    (sizeOf : String → Nat)
    (adminGroupId : Option Int) (sendDocument : Except String Unit) :
    InstaUserMsg × Bool × Option AdminSendResult :=
  match dl with
  | .error _ =>
    (.unexpectedErrorNotice, true, some (sendErrorToAdmin adminGroupId sendDocument))
  | .ok (videoPath, photoMessage) =>
    match photoMessage with
    | some m => (.photoNotice m, false, none)
    | none =>
      match videoPath with
      | some p =>
        if sizeOf p > 50 * 1024 * 1024 then (.oversizeNotice, false, none)
        else (.delivered, false, none)
      | none =>
        (.downloadFailedNotice, true, some (sendErrorToAdmin adminGroupId sendDocument))

/-- Claim C7: the Instagram handler escalates to the admin channel exactly
when the failure is unexplained (all cookie attempts exhausted, i.e. the
download returned neither a path nor a photo message, or an exception); the
photo-only and oversize outcomes produce their specific user messages with no
escalation; and a failure inside the admin send itself is logged and never
changes the user-facing outcome. -/
theorem insta_escalation_policy :
    (∀ dl sizeOf adminGroupId sendDocument,
        (processInstagramLinkModel dl sizeOf adminGroupId sendDocument).2.1 = true ↔
          dl = .ok (none, none) ∨ ∃ e, dl = .error e)
    ∧ (∀ vp m sizeOf adminGroupId sendDocument,
        processInstagramLinkModel (.ok (vp, some m)) sizeOf adminGroupId sendDocument =
          (.photoNotice m, false, none))
    ∧ (∀ p sizeOf adminGroupId sendDocument, sizeOf p > 50 * 1024 * 1024 →
        processInstagramLinkModel (.ok (some p, none)) sizeOf adminGroupId sendDocument =
          (.oversizeNotice, false, none))
    ∧ (∀ dl sizeOf adminGroupId send1 send2,
        (processInstagramLinkModel dl sizeOf adminGroupId send1).1 =
            (processInstagramLinkModel dl sizeOf adminGroupId send2).1 ∧
          (processInstagramLinkModel dl sizeOf adminGroupId send1).2.1 =
            (processInstagramLinkModel dl sizeOf adminGroupId send2).2.1)
    ∧ (∀ adminGroupId e, sendErrorToAdmin adminGroupId (.error e) =
        match adminGroupId with
        | some _ => .failedLogged e
        | none => .skippedNoAdmin) := by
  refine ⟨?_, ?_, ?_, ?_, ?_⟩
  · intro dl sizeOf adminGroupId sendDocument
    rcases dl with e | ⟨vp, pm⟩
    · simp [processInstagramLinkModel]
    · rcases pm with _ | m
      · rcases vp with _ | p
        · simp [processInstagramLinkModel]
        · rw [processInstagramLinkModel]
          by_cases hs : sizeOf p > 50 * 1024 * 1024
          · rw [if_pos hs]
            simp
          · rw [if_neg hs]
            simp
      · simp [processInstagramLinkModel]
  · intro vp m sizeOf adminGroupId sendDocument
    rfl
  · intro p sizeOf adminGroupId sendDocument hs
    rw [processInstagramLinkModel, if_pos hs]
  · intro dl sizeOf adminGroupId send1 send2
    rcases dl with e | ⟨vp, pm⟩
    · exact ⟨rfl, rfl⟩
    · rcases pm with _ | m
      · rcases vp with _ | p
        · exact ⟨rfl, rfl⟩
        · rw [processInstagramLinkModel]
          by_cases hs : sizeOf p > 50 * 1024 * 1024
          · rw [if_pos hs, processInstagramLinkModel, if_pos hs]
            exact ⟨rfl, rfl⟩
          · rw [if_neg hs, processInstagramLinkModel, if_neg hs]
            exact ⟨rfl, rfl⟩
      · exact ⟨rfl, rfl⟩
  · intro adminGroupId e
    rcases adminGroupId with _ | g <;> rfl

/-- Witness for C7: a 60 MiB downloaded file produces the oversize notice and
no escalation, even when the admin send would fail. -/
theorem insta_escalation_policy_witness :
    processInstagramLinkModel (.ok (some "/app/bot_temp/v.mp4", none))
        (fun _ => 60 * 1024 * 1024) (some 1) (.error "network down") =
      (.oversizeNotice, false, none) :=
  insta_escalation_policy.2.2.1 "/app/bot_temp/v.mp4" (fun _ => 60 * 1024 * 1024)
    (some 1) (.error "network down") (by decide)

/-- The model filesystem: the set of existing directories, as a list of
paths. -/
abbrev FS := List String

/-- `os.makedirs(path, exist_ok=True)` (media_bot.py lines 911 and 1022). -/
def makedirs (fs : FS) (p : String) : FS := if p ∈ fs then fs else p :: fs

/-- `shutil.rmtree(path)` on the model filesystem. -/
def rmtree (fs : FS) (p : String) : FS := fs.filter (fun q => q ≠ p)

/-- The guarded cleanup of the `finally` blocks
(`if os.path.exists(temp_folder): shutil.rmtree(temp_folder)`,
media_bot.py lines 1002-1007 and 1093-1094). -/
def cleanupFolder (fs : FS) (p : String) : FS :=
  if p ∈ fs then rmtree fs p else fs

/-- The per-request Instagram workspace path
`os.path.join(TEMP_DOWNLOADS_DIR, f"insta_<chat_id>_<msg_id>")`
(media_bot.py line 910). -/
def instaTempFolder (chatId msgId : Int) : String :=
  tempDownloadsDir ++ "/insta_" ++ toString chatId ++ "_" ++ toString msgId

/-- The per-request TikTok workspace path (media_bot.py line 1021). -/
def tiktokTempFolder (chatId msgId : Int) : String :=
  tempDownloadsDir ++ "/tiktok_" ++ toString chatId ++ "_" ++ toString msgId

/-- The possible ways the `try` body of a link handler can end. -/
inductive BodyOutcome where
  | success
  | declaredFailure (userMessage : String)
  | exception (err : String)
deriving DecidableEq, Repr

/-- The workspace lifecycle of `process_instagram_link` (media_bot.py lines
910-911 and 993-1007): create the folder, run the handler body — which may
change the filesystem arbitrarily and end in success, a declared failure, or
an exception — then run the `finally` cleanup on every exit path. -/
def processInstaWorkspace (fs0 : FS) (chatId msgId : Int)
    (body : FS → FS × BodyOutcome) : FS × BodyOutcome :=
  let folder := instaTempFolder chatId msgId
  let fs1 := makedirs fs0 folder
  let r := body fs1
  (cleanupFolder r.1 folder, r.2)

/-- The workspace lifecycle of `process_tiktok_link` (media_bot.py lines
1021-1022 and 1088-1094). -/
def processTiktokWorkspace (fs0 : FS) (chatId msgId : Int)
    (body : FS → FS × BodyOutcome) : FS × BodyOutcome :=
  let folder := tiktokTempFolder chatId msgId
  let fs1 := makedirs fs0 folder
  let r := body fs1
  (cleanupFolder r.1 folder, r.2)

theorem notMem_cleanupFolder (fs : FS) (p : String) : p ∉ cleanupFolder fs p := by
  by_cases h : p ∈ fs
  · simp [cleanupFolder, h, rmtree, List.mem_filter]
  · simp [cleanupFolder, h]

/-- Claim C8: on every outcome — success, declared failure, or exception —
the per-request temporary workspace directory (derived from the chat and
message ids) does not exist after the handler returns, and the cleanup does
not alter the handler outcome; this holds for the Instagram and the TikTok
handler alike. -/
theorem workspace_always_cleaned :
    (∀ (fs0 : FS) (chatId msgId : Int) (body : FS → FS × BodyOutcome),
        instaTempFolder chatId msgId ∉ (processInstaWorkspace fs0 chatId msgId body).1
        ∧ (processInstaWorkspace fs0 chatId msgId body).2 =
            (body (makedirs fs0 (instaTempFolder chatId msgId))).2)
    ∧ (∀ (fs0 : FS) (chatId msgId : Int) (body : FS → FS × BodyOutcome),
        tiktokTempFolder chatId msgId ∉ (processTiktokWorkspace fs0 chatId msgId body).1
        ∧ (processTiktokWorkspace fs0 chatId msgId body).2 =
            (body (makedirs fs0 (tiktokTempFolder chatId msgId))).2) := by
  constructor
  · intro fs0 chatId msgId body
    exact ⟨notMem_cleanupFolder _ _, rfl⟩
  · intro fs0 chatId msgId body
    exact ⟨notMem_cleanupFolder _ _, rfl⟩

/-- The observable result of one child process of the command runners. -/
inductive ProcResult where
  | completed (stdout stderr : String)
  | timedOut
deriving DecidableEq, Repr

/-- `run_subprocess` (media_bot.py lines 329-362), over the process-wide
`_last_ytdlp_stderr` slot: a run that completes within the timeout returns
the decoded streams and overwrites the slot with the decoded stderr,
regardless of exit code; a timeout raises and leaves the slot unchanged. -/
def runSubprocess (slot : String) (p : ProcResult) :
    Except String (String × String) × String :=
  match p with
  | .completed out err => (.ok (out, err), err)
  | .timedOut => (.error "Command timed out", slot)

/-- `MP3Downloader.run_subprocess` (mp3_downloader.py lines 43-69): returns
the decoded streams but never writes the `_last_ytdlp_stderr` slot. -/
def mp3RunSubprocess (slot : String) (p : ProcResult) :
    Except String (String × String) × String :=
  match p with
  | .completed out err => (.ok (out, err), slot)
  | .timedOut => (.error "MP3 command timed out", slot)

/-- One subprocess invocation, tagged by which command runner performed it. -/
inductive RunnerCall where
  | mediaBot (p : ProcResult)
  | mp3 (p : ProcResult)
deriving DecidableEq, Repr

/-- The slot contents after one runner invocation. -/
def slotStep (slot : String) : RunnerCall → String
  | .mediaBot p => (runSubprocess slot p).2
  | .mp3 p => (mp3RunSubprocess slot p).2

/-- The slot contents after a sequence of runner invocations. -/
def runTrace (slot : String) : List RunnerCall → String
  | [] => slot
  | c :: rest => runTrace (slotStep slot c) rest

/-- The stderr produced by a call, when the call completed. -/
def stderrOf : RunnerCall → Option String
  | .mediaBot (.completed _ e) => some e
  | .mp3 (.completed _ e) => some e
  | _ => none

/-- The decoded stderr of the last media-bot runner invocation of a trace
that completed within its timeout, if any. -/
def lastCompletedStderr : List RunnerCall → Option String
  | [] => none
  | c :: rest =>
    match lastCompletedStderr rest with
    | some e => some e
    | none =>
      match c with
      | .mediaBot (.completed _ e) => some e
      | _ => none

/-- Counterexample to claim C9: a media-bot run with stderr `A` followed by
an MP3-downloader run with stderr `B` leaves the slot at `A`, although the
most recent subprocess call produced stderr `B` — the MP3 runner, cited by
the claim, never writes the slot. -/
theorem last_stderr_slot_counterexample :
    runTrace "" [RunnerCall.mediaBot (.completed "" "A"),
        RunnerCall.mp3 (.completed "" "B")] = "A"
      ∧ stderrOf (RunnerCall.mp3 (.completed "" "B")) = some "B"
      ∧ ("A" : String) ≠ "B" := by
  refine ⟨rfl, rfl, by decide⟩

/-- Claim C9 (amended): a media-bot runner invocation that completes within
its timeout overwrites the process-wide slot with the decoded stderr of that
invocation; the MP3 downloader runner and timed-out invocations leave the slot
unchanged; hence after any trace the slot holds the stderr of the most recent
completed media-bot runner call, or its prior value when there is none. -/
theorem last_stderr_slot :
    (∀ slot out err, runSubprocess slot (.completed out err) = (.ok (out, err), err))
    ∧ (∀ slot p, (mp3RunSubprocess slot p).2 = slot)
    ∧ (∀ slot, (runSubprocess slot .timedOut).2 = slot)
    ∧ (∀ calls slot, runTrace slot calls = (lastCompletedStderr calls).getD slot) := by
  refine ⟨fun _ _ _ => rfl, ?_, fun _ => rfl, ?_⟩
  · intro slot p
    rcases p with ⟨out, err⟩ | _ <;> rfl
  · intro calls
    induction calls with
    | nil => intro slot; rfl
    | cons c rest ih =>
      intro slot
      rw [runTrace, ih (slotStep slot c)]
      rcases hrest : lastCompletedStderr rest with _ | e
      · rcases c with p | p <;> rcases p with ⟨out, err⟩ | _ <;>
          simp [lastCompletedStderr, hrest, slotStep, runSubprocess, mp3RunSubprocess]
      · simp [lastCompletedStderr, hrest]

/-- Whether `sub` occurs contiguously inside the character list. -/
def charListHasInfix (sub : List Char) : List Char → Bool
  | [] => sub.isEmpty
  | a :: rest => sub.isPrefixOf (a :: rest) || charListHasInfix sub rest

/-- Python substring membership `sub in s`, character-list based. -/
def pyContains (s sub : String) : Bool := charListHasInfix sub.data s.data

/-- The short-link test of `resolve_tiktok_url` (media_bot.py line 324):
`"vm.tiktok.com" in url or "vt.tiktok.com" in url`. -/
def isTiktokShortLink (url : String) : Bool :=
  pyContains url "vm.tiktok.com" || pyContains url "vt.tiktok.com"

/-- `resolve_tiktok_url` (media_bot.py lines 323-327): for a short link,
issue one redirect-following HEAD request with a 10-second timeout and return
its final URL; when the request raises, return the original URL unchanged;
a non-short link is returned unchanged without any request.
`head url timeoutSeconds` models
`requests.head(url, allow_redirects=True, timeout=...)`. -/
def resolveTiktokUrl (head : String → Nat → Except String String)
    (url : String) : String :=
  if isTiktokShortLink url then
    match head url 10 with
    | .ok finalUrl => finalUrl
    | .error _ => url
  else url

/-- One externally visible step of the TikTok handler before upload. -/
inductive TiktokStep where
  | headRequest (url : String) (timeoutSeconds : Nat)
  | downloadAttempt (url : String)
deriving DecidableEq, Repr

/-- The ordered external actions of `process_tiktok_link` up to the download
call (media_bot.py lines 1026-1027): the handler resolves the URL first —
issuing the single HEAD request exactly when the link is a short link — and
only then invokes the downloader on the resolved URL. -/
def processTiktokSteps (head : String → Nat → Except String String)
    (url : String) : List TiktokStep :=
  (if isTiktokShortLink url then [TiktokStep.headRequest url 10] else []) ++
    [TiktokStep.downloadAttempt (resolveTiktokUrl head url)]

theorem resolveTiktokUrl_not_short (head : String → Nat → Except String String)
    (url : String) (hshort : isTiktokShortLink url = false) :
    resolveTiktokUrl head url = url := by
  rw [resolveTiktokUrl, if_neg (by simp [hshort])]

/-- Claim C10: a TikTok short link is resolved to its canonical long form by
a single redirect-following HEAD request with a 10-second timeout before any
extraction attempt; when the request fails the original short URL is used
unchanged and processing continues; non-short links are never resolved. -/
theorem tiktok_short_link_resolution :
    (∀ head url u, isTiktokShortLink url = true → head url 10 = .ok u →
        resolveTiktokUrl head url = u)
    ∧ (∀ head url e, isTiktokShortLink url = true → head url 10 = .error e →
        resolveTiktokUrl head url = url)
    ∧ (∀ head url, isTiktokShortLink url = false → resolveTiktokUrl head url = url)
    ∧ (∀ head url, isTiktokShortLink url = true →
        processTiktokSteps head url =
          [TiktokStep.headRequest url 10,
            TiktokStep.downloadAttempt (resolveTiktokUrl head url)])
    ∧ (∀ head url, isTiktokShortLink url = false →
        processTiktokSteps head url = [TiktokStep.downloadAttempt url]) := by
  refine ⟨?_, ?_, ?_, ?_, ?_⟩
  · intro head url u hshort hhead
    rw [resolveTiktokUrl, if_pos hshort, hhead]
  · intro head url e hshort hhead
    rw [resolveTiktokUrl, if_pos hshort, hhead]
  · exact resolveTiktokUrl_not_short
  · intro head url hshort
    rw [processTiktokSteps, if_pos hshort]
    rfl
  · intro head url hshort
    rw [processTiktokSteps, if_neg (by simp [hshort]),
      resolveTiktokUrl_not_short head url hshort]
    rfl

/-- Witness for C10: a concrete `vm.tiktok.com` short link whose HEAD request
times out resolves to itself, and a long-form link is left untouched. -/
theorem tiktok_short_link_resolution_witness :
    resolveTiktokUrl (fun _ _ => .error "connect timeout")
        "https://vm.tiktok.com/ZMabcdef/" = "https://vm.tiktok.com/ZMabcdef/" :=
  tiktok_short_link_resolution.2.1 (fun _ _ => .error "connect timeout")
    "https://vm.tiktok.com/ZMabcdef/" "connect timeout" (by decide) rfl

end MediaBot
